import Mathlib

/-!
Shallow embedding of `src/main.py` of the megaschool-itmo-ai-task service:
a FastAPI endpoint `POST /api/request` that resolves a multiple-choice
answer via a completion API (`get_correct_answer`) and retrieves up to
three supporting links via a search API (`search_relevant_links`), then
assembles a `PredictionResponse`.

Outbound network calls, the pydantic `HttpUrl` validator and the logger are
external collaborators; they are modelled as explicit oracle inputs
(`CompletionResult`, `SearchApiResult`, a `validUrl : String → Bool`
parameter, `LoggerBehavior` failure flags), so every Python control path —
including every `except` branch — corresponds to a match arm below.
-/

namespace ItmoApp

/-- Python `str.split()` with no separator: split the character list on runs
of whitespace, discarding empty pieces.  `cur` is the reversed current token. -/
def splitWsAux : List Char → List Char → List (List Char)
  | [], cur => if cur = [] then [] else [cur.reverse]
  | c :: cs, cur =>
    if c.isWhitespace then
      (if cur = [] then splitWsAux cs [] else cur.reverse :: splitWsAux cs [])
    else splitWsAux cs (c :: cur)

/-- Python `s.strip().split()` as used on line 33 of `main.py`; the `strip`
is redundant because no-separator `split` already drops outer whitespace. -/
def pySplit (s : String) : List String :=
  (splitWsAux s.toList []).map (fun l => String.mk l)

/-- Value of a nonempty all-digit character list, `none` otherwise. -/
def digitsNat (l : List Char) : Option Nat :=
  if l = [] then none
  else if l.all Char.isDigit then
    some (l.foldl (fun a c => a * 10 + (c.toNat - 48)) 0)
  else none

/-- Python `int(s)` on a whitespace-free token: optional sign followed by
decimal digits; `none` models the `ValueError` raised otherwise. -/
def pythonInt (s : String) : Option Int :=
  match s.toList with
  | [] => none
  | '+' :: rest => (digitsNat rest).map Int.ofNat
  | '-' :: rest => (digitsNat rest).map (fun n => -(Int.ofNat n))
  | cs => (digitsNat cs).map Int.ofNat

/-- Outcome of `client.chat.completions.create`: either the call raised
(`apiError`), or it returned a choice list, each choice carrying its
`message.content` (which may be `None`). -/
inductive CompletionResult where
  | apiError
  | ok (choices : List (Option String))
deriving DecidableEq

/-- `get_correct_answer` (main.py lines 20–38).  Returns `some n` for a
Python `int` return value and `none` for Python `None`: when the guard
`if response and response.choices` is false the function falls through and
implicitly returns `None`.  Every exception inside the `try` (API error,
`AttributeError` on a `None` content, `IndexError` on an empty token list,
`ValueError` from `int`) is caught and yields `-1`. -/
def get_correct_answer : CompletionResult → Option Int
  | .apiError => some (-1)
  | .ok [] => none
  | .ok (none :: _) => some (-1)
  | .ok (some content :: _) =>
    match (pySplit content).getLast? with
    | none => some (-1)
    | some tok =>
      match pythonInt tok with
      | some n => some n
      | none => some (-1)

/-- One entry of the search payload's `items` array: `item.get("title")`
and `item.get("link")`, each possibly absent (`None`). -/
structure SearchItem where
  title : Option String
  link : Option String
deriving DecidableEq

/-- Outcome of the `httpx.get` call in `search_relevant_links`:
transport error, non-2xx status (`raise_for_status`), malformed body
(`response.json()` raised), or a parsed payload whose `items` key may be
absent (`data.get("items", [])`). -/
inductive SearchApiResult where
  | netError
  | badStatus
  | badJson
  | ok (items : Option (List SearchItem))
deriving DecidableEq

/-- The fixed fallback string of `search_relevant_links` (line 58). -/
def apologyText : String := "Не удалось найти релевантную информацию."

/-- The fixed lead-in of the `reasoning` string (line 49). -/
def reasoningLead : String := "Результаты поиска указывают на следующие источники:"

/-- Python's f-string rendering of the (possibly `None`) title. -/
def renderTitle : Option String → String
  | none => "None"
  | some t => t

/-- One iteration of the loop (lines 50–54): `HttpUrl(link)` raises when
the link is absent or fails URL validation (`.error`), otherwise the link
is appended to `sources` and its line to `reasoning`. -/
def processItem (validUrl : String → Bool) (st : List String × String)
    (item : SearchItem) : Except Unit (List String × String) :=
  match item.link with
  | none => .error ()
  | some link =>
    if validUrl link then
      .ok (st.1 ++ [link], st.2 ++ "\n- " ++ renderTitle item.title ++ ": " ++ link)
    else .error ()

/-- The whole loop over the first items; any raised exception aborts it. -/
def processItems (validUrl : String → Bool) :
    List SearchItem → List String × String → Except Unit (List String × String)
  | [], st => .ok st
  | i :: is, st =>
    match processItem validUrl st i with
    | .ok st2 => processItems validUrl is st2
    | .error e => .error e

/-- `search_relevant_links` (main.py lines 40–58).  On any exception inside
the `try` — transport error, non-2xx, malformed JSON, or a `HttpUrl`
validation failure inside the loop — returns `([], apologyText)`. -/
def search_relevant_links (validUrl : String → Bool) (api : SearchApiResult) :
    List String × String :=
  match api with
  | .ok itemsOpt =>
    match processItems validUrl ((itemsOpt.getD []).take 3) ([], reasoningLead) with
    | .ok st => st
    | .error _ => ([], apologyText)
  | _ => ([], apologyText)

/-- Modelled from the spec: `schemas/request.py` is not shipped in `src/`.
`PredictionRequest` is "{ id: opaque identifier …, query: non-empty text }",
with `query` a required field. -/
structure PredictionRequest where
  id : String
  query : String
deriving DecidableEq

/-- Modelled from the spec: `schemas/request.py` is not shipped in `src/`.
`PredictionResponse` is "{ id: copied from request, answer: integer …,
reasoning: free-text …, sources: ordered sequence of 0–3 well-formed URLs }";
pydantic rejects a `None` answer for the integer field. -/
structure PredictionResponse where
  id : String
  answer : Int
  reasoning : String
  sources : List String
deriving DecidableEq

/-- Modelled from the spec: the pydantic validation message produced when
response assembly rejects `answer=None`; its exact text is irrelevant to the
claims, only that it is the `str(e)` of a `ValueError`. -/
def pydanticNoneMsg : String :=
  "1 validation error for PredictionResponse: answer must be an integer"

/-- Failure pattern of the external logger collaborator during one request:
whether `await logger.info(...)` raises at middleware entry (line 76),
at middleware exit (line 88), at the start of `predict` (line 106), and
after successful assembly (line 116). -/
structure LoggerBehavior where
  failMidIn : Bool
  failMidOut : Bool
  failAtStart : Bool
  failAtSuccess : Bool
deriving DecidableEq

/-- Result of the `predict` endpoint body: a built `PredictionResponse`
(HTTP 200), an `HTTPException(400, detail)` from the `except ValueError`
arm, or an `HTTPException(500, "Internal server error")` from the
`except Exception` arm. -/
inductive HandlerResult where
  | ok (resp : PredictionResponse)
  | clientError (detail : String)
  | serverError
deriving DecidableEq

/-- `predict` (main.py lines 103–124), given the oracles for one request.
Order follows the source: the logger call at line 106 (a raised exception
there is caught by `except Exception`), then `get_correct_answer`, then
`search_relevant_links`, then `PredictionResponse` construction — where an
`answer` of `None` raises a pydantic `ValidationError`, a subclass of
`ValueError`, caught at line 118 — then the logger call at line 116. -/
def predict (validUrl : String → Bool) (comp : CompletionResult)
    (api : SearchApiResult) (lg : LoggerBehavior)
    (body : PredictionRequest) : HandlerResult :=
  if lg.failAtStart then .serverError
  else
    match get_correct_answer comp with
    | none => .clientError pydanticNoneMsg
    | some a =>
      let sr := search_relevant_links validUrl api
      if lg.failAtSuccess then .serverError
      else .ok { id := body.id, answer := a, reasoning := sr.2, sources := sr.1 }

/-- Body of an HTTP response of the app, kept symbolic: the JSON
serialization of a `PredictionResponse`, a JSON object whose `detail` field
is the given string, FastAPI's 422 request-validation JSON body, or a
plain-text body (Starlette's generic server-error page). -/
inductive RespBody where
  | jsonResp (r : PredictionResponse)
  | jsonDetail (s : String)
  | jsonValidation422
  | plainDetail (s : String)
deriving DecidableEq

/-- An HTTP response: status code and body. -/
structure HttpResponse where
  status : Nat
  body : RespBody
deriving DecidableEq

/-- An incoming `POST /api/request`: either a JSON body that parses as a
`PredictionRequest`, or one missing the required `query` field. -/
inductive RawRequest where
  | valid (body : PredictionRequest)
  | missingQuery (id : String)
deriving DecidableEq

/-- FastAPI routing and body validation around `predict`: a body that fails
`PredictionRequest` validation is answered by the framework's default
`RequestValidationError` handler with status 422; `HTTPException(400/500)`
raised by `predict` becomes a JSON response with that status and a
`detail` field. -/
def routeRequest (validUrl : String → Bool) (comp : CompletionResult)
    (api : SearchApiResult) (lg : LoggerBehavior) :
    RawRequest → HttpResponse
  | .missingQuery _ => ⟨422, .jsonValidation422⟩
  | .valid body =>
    match predict validUrl comp api lg body with
    | .ok r => ⟨200, .jsonResp r⟩
    | .clientError d => ⟨400, .jsonDetail d⟩
    | .serverError => ⟨500, .jsonDetail "Internal server error"⟩

/-- `log_requests` middleware (main.py lines 71–100): logs before invoking
`call_next` and after it, then re-emits the inner response unchanged.  A
logger exception at either point propagates out of the middleware
(`.error`); nothing in the middleware catches it. -/
def log_requests (lg : LoggerBehavior) (inner : HttpResponse) :
    Except Unit HttpResponse :=
  if lg.failMidIn then .error ()
  else if lg.failMidOut then .error ()
  else .ok inner

/-- The full application stack for one request: Starlette's
`ServerErrorMiddleware` (debug off) around `log_requests` around routing.
An exception escaping the middleware is answered with the framework's
generic plain-text 500 response. -/
def appStack (validUrl : String → Bool) (comp : CompletionResult)
    (api : SearchApiResult) (lg : LoggerBehavior) (req : RawRequest) :
    HttpResponse :=
  match log_requests lg (routeRequest validUrl comp api lg req) with
  | .ok r => r
  | .error _ => ⟨500, .plainDetail "Internal Server Error"⟩

/-- The parsing policy in the spec's words, for comparison with
`get_correct_answer`: "take the response's primary completion text, split on
whitespace, take the last token, parse as an integer"; if that token is not
an integer (or there is no token), the answer is `-1`. -/
def specLastTokenAnswer (content : String) : Int :=
  match (pySplit content).getLast? with
  | none => -1
  | some tok =>
    match pythonInt tok with
    | some n => n
    | none => -1

/-- Whether an item survives the loop body: its `link` is present and passes
URL validation. -/
def goodItemB (validUrl : String → Bool) (it : SearchItem) : Bool :=
  match it.link with
  | none => false
  | some l => validUrl l

/-- Whether the search API oracle is one of the failure outcomes (transport
error, non-2xx status, malformed payload). -/
def isSearchFailureB : SearchApiResult → Bool
  | .ok _ => false
  | _ => true

/-- A concrete stand-in for pydantic's URL syntax check, used to instantiate
theorems at concrete inputs: accepts exactly three sample URLs. -/
def sampleValid (s : String) : Bool :=
  s == "http://a" || s == "http://b" || s == "http://c"

/-! ### Helper lemmas about the retrieval loop -/

theorem processItems_nil (v : String → Bool) (st : List String × String) :
    processItems v [] st = .ok st := rfl

theorem processItems_preserves_valid (v : String → Bool) :
    ∀ (items : List SearchItem) (st out : List String × String),
      processItems v items st = .ok out →
      (∀ s ∈ st.1, v s = true) → ∀ s ∈ out.1, v s = true := by
  intro items
  induction items with
  | nil =>
    intro st out h hst
    simp only [processItems, Except.ok.injEq] at h
    exact h ▸ hst
  | cons i is ih =>
    intro st out h hst
    simp only [processItems] at h
    cases hp : processItem v st i with
    | error e => rw [hp] at h; cases h
    | ok st2 =>
      rw [hp] at h
      refine ih st2 out h ?_
      unfold processItem at hp
      cases hl : i.link with
      | none => rw [hl] at hp; cases hp
      | some link =>
        rw [hl] at hp
        dsimp only at hp
        by_cases hv : v link = true
        · rw [if_pos hv] at hp
          cases hp
          intro s hs
          rcases List.mem_append.mp hs with h1 | h2
          · exact hst s h1
          · rwa [List.mem_singleton.mp h2]
        · rw [if_neg hv] at hp; cases hp

theorem processItems_length_le (v : String → Bool) :
    ∀ (items : List SearchItem) (st out : List String × String),
      processItems v items st = .ok out →
      out.1.length ≤ st.1.length + items.length := by
  intro items
  induction items with
  | nil =>
    intro st out h
    simp only [processItems, Except.ok.injEq] at h
    simp [← h]
  | cons i is ih =>
    intro st out h
    simp only [processItems] at h
    cases hp : processItem v st i with
    | error e => rw [hp] at h; cases h
    | ok st2 =>
      rw [hp] at h
      have hlen : st2.1.length = st.1.length + 1 := by
        unfold processItem at hp
        cases hl : i.link with
        | none => rw [hl] at hp; cases hp
        | some link =>
          rw [hl] at hp
          dsimp only at hp
          by_cases hv : v link = true
          · rw [if_pos hv] at hp; cases hp; simp
          · rw [if_neg hv] at hp; cases hp
      have := ih st2 out h
      rw [hlen] at this
      rw [List.length_cons]
      omega

theorem processItems_all_good (v : String → Bool) :
    ∀ (items : List SearchItem) (st : List String × String),
      (∀ it ∈ items, goodItemB v it = true) →
      ∃ r, processItems v items st =
        .ok (st.1 ++ items.filterMap SearchItem.link, r) := by
  intro items
  induction items with
  | nil => intro st _; exact ⟨st.2, by simp [processItems]⟩
  | cons i is ih =>
    intro st hgood
    have hi : goodItemB v i = true := hgood i (List.mem_cons_self i is)
    unfold goodItemB at hi
    cases hl : i.link with
    | none => rw [hl] at hi; cases hi
    | some link =>
      rw [hl] at hi
      obtain ⟨r, hr⟩ := ih (st.1 ++ [link],
        st.2 ++ "\n- " ++ renderTitle i.title ++ ": " ++ link)
        (fun it hit => hgood it (List.mem_cons_of_mem i hit))
      refine ⟨r, ?_⟩
      simp only [processItems, processItem, hl, if_pos hi]
      rw [hr]
      simp [List.filterMap_cons, hl]

theorem processItems_bad_aborts (v : String → Bool) :
    ∀ (items : List SearchItem) (st : List String × String),
      (∃ it ∈ items, goodItemB v it = false) →
      processItems v items st = .error () := by
  intro items
  induction items with
  | nil => intro st h; rcases h with ⟨it, hmem, _⟩; cases hmem
  | cons i is ih =>
    intro st h
    by_cases hi : goodItemB v i = true
    · unfold goodItemB at hi
      cases hl : i.link with
      | none => rw [hl] at hi; cases hi
      | some link =>
        rw [hl] at hi
        simp only [processItems, processItem, hl, if_pos hi]
        refine ih _ ?_
        rcases h with ⟨it, hmem, hbad⟩
        rcases List.mem_cons.mp hmem with heq | htail
        · exfalso; rw [heq] at hbad
          unfold goodItemB at hbad; rw [hl] at hbad
          rw [hbad] at hi; cases hi
        · exact ⟨it, htail, hbad⟩
    · simp only [Bool.not_eq_true] at hi
      unfold goodItemB at hi
      cases hl : i.link with
      | none => simp [processItems, processItem, hl]
      | some link =>
        rw [hl] at hi
        dsimp only at hi
        simp [processItems, processItem, hl, hi]

theorem filterMap_link_length (v : String → Bool) :
    ∀ items : List SearchItem, (∀ it ∈ items, goodItemB v it = true) →
      (items.filterMap SearchItem.link).length = items.length := by
  intro items
  induction items with
  | nil => intro _; rfl
  | cons i is ih =>
    intro hgood
    have hi : goodItemB v i = true := hgood i (List.mem_cons_self i is)
    unfold goodItemB at hi
    cases hl : i.link with
    | none => rw [hl] at hi; cases hi
    | some link =>
      simp [List.filterMap_cons, hl,
        ih (fun it hit => hgood it (List.mem_cons_of_mem i hit))]

theorem search_ok_eq (v : String → Bool) (itemsOpt : Option (List SearchItem)) :
    search_relevant_links v (.ok itemsOpt) =
      match processItems v ((itemsOpt.getD []).take 3) ([], reasoningLead) with
      | .ok st => st
      | .error _ => ([], apologyText) := rfl

/-! ### Claim theorems -/

/-- C2: the claim says that on an empty (or absent) choice list
`get_correct_answer` returns exactly `-1`.  Evaluating the code at that
input: the guard `if response and response.choices` is false, the function
falls through its `try` block and implicitly returns Python `None`
(modelled as `none`), not `-1`. -/
theorem C2_empty_choices_returns_none :
    get_correct_answer (.ok []) = none ∧
    get_correct_answer (.ok []) ≠ some (-1) :=
  ⟨rfl, by decide⟩

/-- C5: whenever the completion API returns a non-empty choice list whose
first choice carries a content string, the resolved answer is exactly the
spec's parse: the integer value of the last whitespace-delimited token of
that content, and `-1` when that token is not an integer (or there is no
token at all). -/
theorem C5_last_token_parse (content : String) (rest : List (Option String)) :
    get_correct_answer (.ok (some content :: rest)) =
      some (specLastTokenAnswer content) := by
  cases h : (pySplit content).getLast? with
  | none => simp [get_correct_answer, specLastTokenAnswer, h]
  | some tok =>
    cases h2 : pythonInt tok with
    | none => simp [get_correct_answer, specLastTokenAnswer, h, h2]
    | some n => simp [get_correct_answer, specLastTokenAnswer, h, h2]

/-- Witness for C5 at a concrete content whose last token is "7". -/
theorem C5_witness :
    get_correct_answer (.ok [some "Ответ: 7"]) =
      some (specLastTokenAnswer "Ответ: 7") :=
  C5_last_token_parse "Ответ: 7" []

/-- C3 counterexample: a payload whose only item has a link rejected by URL
validation.  The `HttpUrl` failure is raised inside the `try` of
`search_relevant_links`, so it is caught like every other error and
converted to the `([], apology)` fallback — it does not propagate out of
retrieval, contrary to the claim. -/
theorem C3_counterexample :
    search_relevant_links sampleValid
        (.ok (some [⟨some "Лекция", some "not-a-url"⟩])) =
      ([], apologyText) := rfl

/-- C3 (amended): every element placed in `sources` does pass URL
validation, but a URL-validation failure is swallowed by the surrounding
`except Exception` like any other retrieval error and converted to the
empty-sources/apology fallback instead of propagating. -/
theorem C3_amended_sources_validated (validUrl : String → Bool)
    (api : SearchApiResult) :
    ∀ s ∈ (search_relevant_links validUrl api).1, validUrl s = true := by
  cases api with
  | netError => simp [search_relevant_links]
  | badStatus => simp [search_relevant_links]
  | badJson => simp [search_relevant_links]
  | ok itemsOpt =>
    rw [search_ok_eq]
    cases hp : processItems validUrl ((itemsOpt.getD []).take 3) ([], reasoningLead) with
    | error e => simp
    | ok out =>
      exact processItems_preserves_valid validUrl _ _ out hp (by simp)

/-- Witness for C3 (amended) at a concrete input: the single retrieved
source of a one-item payload passes the sample validator. -/
theorem C3_amended_witness : sampleValid "http://a" = true :=
  C3_amended_sources_validated sampleValid
    (.ok (some [⟨some "t", some "http://a"⟩])) "http://a" (by decide)

/-- C10: retrieval is all-or-nothing.  If any of the first three items
fails (missing link or link rejected by URL validation), the partially
built `sources`/`reasoning` state is discarded and the function returns
exactly `([], apology)`. -/
theorem C10_all_or_nothing (validUrl : String → Bool)
    (items : List SearchItem)
    (h : ∃ it ∈ items.take 3, goodItemB validUrl it = false) :
    search_relevant_links validUrl (.ok (some items)) = ([], apologyText) := by
  rw [search_ok_eq]
  simp only [Option.getD_some]
  rw [processItems_bad_aborts validUrl (items.take 3) _ h]

/-- Witness for C10 at a concrete input: the first item is valid, the
second fails validation, and the whole result is the fallback pair. -/
theorem C10_witness :
    search_relevant_links sampleValid
        (.ok (some [⟨some "t1", some "http://a"⟩, ⟨some "t2", some "bad"⟩])) =
      ([], apologyText) :=
  C10_all_or_nothing sampleValid
    [⟨some "t1", some "http://a"⟩, ⟨some "t2", some "bad"⟩]
    ⟨⟨some "t2", some "bad"⟩, by decide, by decide⟩

/-- C8: for every payload, `sources` has length at most 3; and when the
first `min 3 n` items all carry validated links, `sources` is exactly their
links in order — one entry per consumed item, no padding — and every
element passes URL validation. -/
theorem C8_sources_shape (validUrl : String → Bool) :
    (∀ api : SearchApiResult,
      ((search_relevant_links validUrl api).1).length ≤ 3) ∧
    (∀ items : List SearchItem,
      (∀ it ∈ items.take 3, goodItemB validUrl it = true) →
      (search_relevant_links validUrl (.ok (some items))).1 =
        (items.take 3).filterMap SearchItem.link ∧
      ((search_relevant_links validUrl (.ok (some items))).1).length =
        min 3 items.length ∧
      ∀ s ∈ (search_relevant_links validUrl (.ok (some items))).1,
        validUrl s = true) := by
  constructor
  · intro api
    cases api with
    | netError => simp [search_relevant_links]
    | badStatus => simp [search_relevant_links]
    | badJson => simp [search_relevant_links]
    | ok itemsOpt =>
      rw [search_ok_eq]
      cases hp : processItems validUrl ((itemsOpt.getD []).take 3) ([], reasoningLead) with
      | error e => simp
      | ok out =>
        dsimp only
        have h1 := processItems_length_le validUrl _ _ out hp
        have h2 : ((itemsOpt.getD []).take 3).length ≤ 3 := by
          rw [List.length_take]; omega
        dsimp only at h1
        simp only [List.length_nil] at h1
        omega
  · intro items hgood
    obtain ⟨r, hr⟩ := processItems_all_good validUrl (items.take 3)
      ([], reasoningLead) hgood
    have hsrc : (search_relevant_links validUrl (.ok (some items))).1 =
        (items.take 3).filterMap SearchItem.link := by
      rw [search_ok_eq]
      simp only [Option.getD_some]
      rw [hr]
      simp
    refine ⟨hsrc, ?_, ?_⟩
    · rw [hsrc, filterMap_link_length validUrl _ hgood, List.length_take]
    · intro s hs
      rw [hsrc] at hs
      have := processItems_preserves_valid validUrl (items.take 3)
        ([], reasoningLead) _ hr (by simp)
      exact this s (by simpa using hs)

/-- Witness for C8 at a concrete input: a two-item payload with validated
links yields exactly those two links, of length `min 3 2`, all valid. -/
theorem C8_witness :
    (search_relevant_links sampleValid
        (.ok (some [⟨some "t1", some "http://a"⟩, ⟨some "t2", some "http://b"⟩]))).1 =
      ([⟨some "t1", some "http://a"⟩,
        (⟨some "t2", some "http://b"⟩ : SearchItem)].take 3).filterMap
        SearchItem.link ∧
    ((search_relevant_links sampleValid
        (.ok (some [⟨some "t1", some "http://a"⟩, ⟨some "t2", some "http://b"⟩]))).1).length =
      min 3 2 ∧
    ∀ s ∈ (search_relevant_links sampleValid
        (.ok (some [⟨some "t1", some "http://a"⟩, ⟨some "t2", some "http://b"⟩]))).1,
      sampleValid s = true :=
  (C8_sources_shape sampleValid).2
    [⟨some "t1", some "http://a"⟩, ⟨some "t2", some "http://b"⟩] (by decide)

theorem appStack_eq_200 (v : String → Bool) (comp : CompletionResult)
    (api : SearchApiResult) (lg : LoggerBehavior) (req : RawRequest)
    (r : PredictionResponse)
    (h : appStack v comp api lg req = ⟨200, .jsonResp r⟩) :
    ∃ body a, req = .valid body ∧ get_correct_answer comp = some a ∧
      r = ⟨body.id, a, (search_relevant_links v api).2,
           (search_relevant_links v api).1⟩ := by
  rcases lg with ⟨mi, mo, fs, fsu⟩
  cases mi with
  | true => simp [appStack, log_requests] at h
  | false =>
    cases mo with
    | true => simp [appStack, log_requests] at h
    | false =>
      cases req with
      | missingQuery i => simp [appStack, log_requests, routeRequest] at h
      | valid body =>
        cases fs with
        | true => simp [appStack, log_requests, routeRequest, predict] at h
        | false =>
          cases hg : get_correct_answer comp with
          | none =>
            simp [appStack, log_requests, routeRequest, predict, hg] at h
          | some a =>
            cases fsu with
            | true =>
              simp [appStack, log_requests, routeRequest, predict, hg] at h
            | false =>
              refine ⟨body, a, rfl, rfl, ?_⟩
              simp [appStack, log_requests, routeRequest, predict, hg] at h
              exact h.symm

/-- C1 counterexample: a completion whose content's last token is "42"
yields a 200 response whose `answer` field is 42 — an integer outside
[1,10] and different from the sentinel -1; the endpoint does not clamp the
parsed value. -/
theorem C1_counterexample :
    appStack sampleValid (.ok [some "Ответ: 42"]) (.ok (some []))
        ⟨false, false, false, false⟩ (.valid ⟨"7", "q"⟩) =
      ⟨200, .jsonResp ⟨"7", 42, reasoningLead, []⟩⟩ ∧
    ¬((42 : Int) = -1 ∨ (1 ≤ (42 : Int) ∧ (42 : Int) ≤ 10)) :=
  ⟨rfl, by decide⟩

/-- C1 (amended): in every 200 response the `answer` field is an integer
and equals exactly the resolver's output — `-1` whenever the resolver
failed, otherwise the integer parsed from the completion's last token,
which is not constrained to [1,10]. -/
theorem C1_amended_answer_is_resolver_output (v : String → Bool)
    (comp : CompletionResult) (api : SearchApiResult) (lg : LoggerBehavior)
    (body : PredictionRequest) (r : PredictionResponse)
    (h : appStack v comp api lg (.valid body) = ⟨200, .jsonResp r⟩) :
    get_correct_answer comp = some r.answer := by
  obtain ⟨body', a, _, hg, hr⟩ := appStack_eq_200 v comp api lg _ r h
  subst hr
  simpa using hg

/-- Witness for C1 (amended) at a concrete run returning 200. -/
theorem C1_amended_witness :
    get_correct_answer (.ok [some "3"]) =
      some (PredictionResponse.answer ⟨"1", 3, apologyText, []⟩) :=
  C1_amended_answer_is_resolver_output sampleValid (.ok [some "3"])
    .netError ⟨false, false, false, false⟩ ⟨"1", "q"⟩
    ⟨"1", 3, apologyText, []⟩ rfl

/-- C4 counterexample: a request missing `query` is answered by FastAPI's
default request-validation handler with status 422, not 400. -/
theorem C4_counterexample :
    (appStack sampleValid .apiError .netError ⟨false, false, false, false⟩
        (.missingQuery "1")).status = 422 ∧ (422 : Nat) ≠ 400 :=
  ⟨rfl, by decide⟩

/-- C4 (amended): a request missing the `query` field yields HTTP 422 (the
framework's request-validation status) with the validation JSON body — not
500, and also not 400 — provided the logging middleware itself does not
fail. -/
theorem C4_amended_missing_query_422 (v : String → Bool)
    (comp : CompletionResult) (api : SearchApiResult) (lg : LoggerBehavior)
    (idv : String) (h1 : lg.failMidIn = false) (h2 : lg.failMidOut = false) :
    appStack v comp api lg (.missingQuery idv) = ⟨422, .jsonValidation422⟩ := by
  simp [appStack, log_requests, routeRequest, h1, h2]

/-- Witness for C4 (amended) at a concrete input. -/
theorem C4_amended_witness :
    appStack sampleValid .apiError .netError ⟨false, false, false, false⟩
      (.missingQuery "1") = ⟨422, .jsonValidation422⟩ :=
  C4_amended_missing_query_422 sampleValid .apiError .netError
    ⟨false, false, false, false⟩ "1" rfl rfl

/-- C6: when the search API call fails (transport error, non-2xx status or
malformed payload), `search_relevant_links` returns exactly
`([], apology)`, and — with a resolver result and a working logger — the
HTTP response is still a 200 carrying empty sources and the apology
string. -/
theorem C6_search_failure_still_200 (v : String → Bool)
    (comp : CompletionResult) (api : SearchApiResult)
    (body : PredictionRequest) (a : Int)
    (hapi : isSearchFailureB api = true)
    (hcomp : get_correct_answer comp = some a) :
    search_relevant_links v api = ([], apologyText) ∧
    appStack v comp api ⟨false, false, false, false⟩ (.valid body) =
      ⟨200, .jsonResp ⟨body.id, a, apologyText, []⟩⟩ := by
  have hs : search_relevant_links v api = ([], apologyText) := by
    cases api with
    | netError => rfl
    | badStatus => rfl
    | badJson => rfl
    | ok itemsOpt => simp [isSearchFailureB] at hapi
  refine ⟨hs, ?_⟩
  simp [appStack, log_requests, routeRequest, predict, hcomp, hs]

/-- Witness for C6 at a concrete transport failure. -/
theorem C6_witness :
    search_relevant_links sampleValid .netError = ([], apologyText) ∧
    appStack sampleValid (.ok [some "3"]) .netError
        ⟨false, false, false, false⟩ (.valid ⟨"9", "q"⟩) =
      ⟨200, .jsonResp ⟨"9", 3, apologyText, []⟩⟩ :=
  C6_search_failure_still_200 sampleValid (.ok [some "3"]) .netError
    ⟨"9", "q"⟩ 3 rfl rfl

/-- C7: every 200 response echoes the request's `id` unmodified. -/
theorem C7_id_echoed (v : String → Bool) (comp : CompletionResult)
    (api : SearchApiResult) (lg : LoggerBehavior)
    (body : PredictionRequest) (r : PredictionResponse)
    (h : appStack v comp api lg (.valid body) = ⟨200, .jsonResp r⟩) :
    r.id = body.id := by
  obtain ⟨body', a, hb, _, hr⟩ := appStack_eq_200 v comp api lg _ r h
  cases hb
  rw [hr]

/-- Witness for C7 at a concrete run returning 200. -/
theorem C7_witness :
    (PredictionResponse.id ⟨"9", 3, apologyText, []⟩) =
      (PredictionRequest.id ⟨"9", "q"⟩) :=
  C7_id_echoed sampleValid (.ok [some "3"]) .netError
    ⟨false, false, false, false⟩ ⟨"9", "q"⟩ ⟨"9", 3, apologyText, []⟩ rfl

/-- C9 counterexample: a logger failure at the entry of the `log_requests`
middleware escapes the middleware; Starlette's server-error layer answers
with its generic plain-text 500 body, which is not the JSON object with
detail "Internal server error" that the claim requires. -/
theorem C9_counterexample :
    appStack sampleValid (.ok [some "3"]) .netError
        ⟨true, false, false, false⟩ (.valid ⟨"1", "q"⟩) =
      ⟨500, .plainDetail "Internal Server Error"⟩ ∧
    RespBody.plainDetail "Internal Server Error" ≠
      RespBody.jsonDetail "Internal server error" :=
  ⟨rfl, by decide⟩

/-- C9 (amended): every 500 response carries one of two fixed generic
bodies — the JSON detail "Internal server error" (exceptions caught inside
the endpoint, including logger failures there) or the framework's
plain-text "Internal Server Error" (logger failures inside the logging
middleware).  In neither case does internal exception text appear in the
body. -/
theorem C9_amended_500_bodies_generic (v : String → Bool)
    (comp : CompletionResult) (api : SearchApiResult) (lg : LoggerBehavior)
    (req : RawRequest)
    (h : (appStack v comp api lg req).status = 500) :
    (appStack v comp api lg req).body = .jsonDetail "Internal server error" ∨
    (appStack v comp api lg req).body = .plainDetail "Internal Server Error" := by
  rcases lg with ⟨mi, mo, fs, fsu⟩
  cases mi with
  | true => right; rfl
  | false =>
    cases mo with
    | true => right; rfl
    | false =>
      cases req with
      | missingQuery i => simp [appStack, log_requests, routeRequest] at h
      | valid body =>
        cases fs with
        | true => left; rfl
        | false =>
          cases hg : get_correct_answer comp with
          | none =>
            simp [appStack, log_requests, routeRequest, predict, hg] at h
          | some a =>
            cases fsu with
            | true =>
              left
              simp [appStack, log_requests, routeRequest, predict, hg]
            | false =>
              simp [appStack, log_requests, routeRequest, predict, hg] at h

/-- Witness for C9 (amended): a logger failure inside the endpoint yields
the JSON generic body or the plain-text one. -/
theorem C9_amended_witness :
    (appStack sampleValid (.ok [some "3"]) .netError
        ⟨false, false, true, false⟩ (.valid ⟨"1", "q"⟩)).body =
      .jsonDetail "Internal server error" ∨
    (appStack sampleValid (.ok [some "3"]) .netError
        ⟨false, false, true, false⟩ (.valid ⟨"1", "q"⟩)).body =
      .plainDetail "Internal Server Error" :=
  C9_amended_500_bodies_generic sampleValid (.ok [some "3"]) .netError
    ⟨false, false, true, false⟩ (.valid ⟨"1", "q"⟩) rfl

end ItmoApp
